import Mathlib

/-!
Shallow embedding of the Shop API service: an Express + MongoDB CRUD server
over two collections, "products" and "items", with an API-key gate on the
items-mutation routes.

Documents are association lists from field names to JSON-like values (the
first binding of a key is its value, matching a JavaScript object, which
cannot carry duplicate keys).  The document store is an association list
from object-identifier strings to documents.  Each HTTP handler is a pure
function from its request parts and the current store contents to a
response, the new store contents, and the list of store operations it
issued (an empty list embeds "no database call was made").
-/

/-- A JSON-like value as handled by the service. -/
inductive Val where
  | str (s : String)
  | num (n : Int)
  | nan
  | bool (b : Bool)
  | null
  deriving DecidableEq, Repr

/-- JavaScript truthiness of a value, as used by the service's
presence checks (`!name`, `if (category)`). -/
def truthy : Val → Bool
  | .str s => s != ""
  | .num n => n != 0
  | .nan => false
  | .bool b => b
  | .null => false

/-- Decimal digit-string parse, the fragment of JavaScript numeric syntax
exercised by the service. -/
def parseNatDigits (s : String) : Option Nat :=
  if s.data.length != 0 && s.data.all Char.isDigit then
    some (s.data.foldl (fun acc c => acc * 10 + (c.toNat - 48)) 0)
  else none

/-- Models the JavaScript `Number()` coercion used at `price: Number(price)`
and `$gte: Number(minPrice)`: digit strings parse to their decimal value,
the empty string coerces to 0, any other string to NaN. -/
def jsNumber : Val → Val
  | .num n => .num n
  | .nan => .nan
  | .str s =>
    match parseNatDigits s with
    | some n => .num (Int.ofNat n)
    | none => if s == "" then .num 0 else .nan
  | .bool b => .num (if b then 1 else 0)
  | .null => .num 0

/-- A document: an association list of fields; the first binding of a key
is its value. -/
abbrev Doc := List (String × Val)

/-- Field lookup in a document. -/
def getField (d : Doc) (k : String) : Option Val :=
  match d with
  | [] => none
  | kv :: tl => if kv.1 == k then some kv.2 else getField tl k

/-- Mongo `$set` semantics: every field of the patch overwrites or adds its
key; every other field of the document is kept. -/
def setMerge (d patch : Doc) : Doc :=
  patch ++ d.filter (fun kv => (getField patch kv.1).isNone)

/-- A collection of the store: identifier-keyed documents. -/
abbrev Collection := List (String × Doc)

/-- `findOne({_id})`: the document stored under the identifier, if any. -/
def findOne (c : Collection) (id : String) : Option Doc :=
  match c with
  | [] => none
  | e :: tl => if e.1 == id then some e.2 else findOne tl id

/-- `insertOne(doc)` with the store-generated identifier `id`: the stored
document carries `_id` alongside the inserted fields. -/
def insertOne (c : Collection) (id : String) (d : Doc) : Collection :=
  c ++ [(id, ("_id", Val.str id) :: d)]

/-- The per-entry effect of `$set` on the collection: the matching entry
gets the patch merged in, every other entry is untouched. -/
def updF (id : String) (patch : Doc) : String × Doc → String × Doc :=
  fun e => if e.1 == id then (e.1, setMerge e.2 patch) else e

/-- `updateOne({_id}, {$set: patch})`: returns the new collection and the
matched count (0 or 1). -/
def updateOne (c : Collection) (id : String) (patch : Doc) : Collection × Nat :=
  if (findOne c id).isSome then (c.map (updF id patch), 1)
  else (c, 0)

/-- `deleteOne({_id})`: returns the new collection and the deleted count
(0 or 1). -/
def deleteOne (c : Collection) (id : String) : Collection × Nat :=
  if (findOne c id).isSome then
    (c.filter (fun e => e.1 != id), 1)
  else (c, 0)

/-- Hex digit, in the three ASCII ranges the object-identifier encoding
accepts. -/
def isHexDigit (c : Char) : Bool :=
  c.isDigit || (97 ≤ c.toNat && c.toNat ≤ 102) || (65 ≤ c.toNat && c.toNat ≤ 70)

namespace ObjectId

/-- `ObjectId.isValid`: the store's canonical 24-character hex
object-identifier encoding (per the identifier codec contract). -/
def isValid (s : String) : Bool :=
  s.data.length == 24 && s.data.all isHexDigit

end ObjectId

/-- The response body shapes the service produces. -/
inductive RBody where
  | empty
  | errObj (msg : String)
  | msgObj (msg : String)
  | docObj (d : Doc)
  | createdObj (msg : String) (id : String)
  deriving DecidableEq, Repr

/-- An HTTP response: status code and JSON (or empty) body. -/
structure Response where
  status : Nat
  body : RBody
  deriving DecidableEq, Repr

/-- The query GET /api/products builds for the store: optional category
equality, optional inclusive price lower bound, optional projection
(field inclusion list), and the ascending price sort flag. -/
structure ProductsQuery where
  categoryEq : Option String
  priceGte : Option Val
  projection : Option (List String)
  sortPriceAsc : Bool
  deriving DecidableEq, Repr

/-- A store operation issued by a handler. -/
inductive StoreOp where
  | findOne (coll : String) (id : String)
  | find (coll : String) (q : ProductsQuery)
  | insertOne (coll : String) (d : Doc)
  | updateOne (coll : String) (id : String) (patch : Doc)
  | deleteOne (coll : String) (id : String)
  deriving DecidableEq, Repr

/-- Truthiness of an optional header/query string: an absent value and the
empty string are both falsy. -/
def truthyStr : Option String → Bool
  | some s => s != ""
  | none => false

/-- `apiKeyMiddleware`: `clientKey` is `req.headers["x-api-key"]`,
`serverKey` is `process.env.API_KEY` (absent when the variable is unset).
Returns the rejection response, or `none` to continue to the handler. -/
def apiKeyMiddleware (clientKey serverKey : Option String) : Option Response :=
  if !(truthyStr clientKey) then
    some ⟨401, .errObj "Unauthorized: API key missing"⟩
  else if clientKey != serverKey then
    some ⟨403, .errObj "Forbidden: Invalid API key"⟩
  else none

/-- The query object GET /api/products builds from its query parameters
(`filter`, `projection`, and the sort flag combined). -/
def buildProductsQuery (category minPrice sort fields : Option String) :
    ProductsQuery :=
  ⟨ if truthyStr category then category else none
  , match minPrice with
    | some m => if m != "" then some (jsNumber (Val.str m)) else none
    | none => none
  , match fields with
    | some f => if f != "" then some (f.splitOn ",") else none
    | none => none
  , sort == some "price" ⟩

/-- GET /api/products/:id. -/
def getProductById (products : Collection) (id : String) :
    Response × List StoreOp :=
  if ObjectId.isValid id then
    match findOne products id with
    | none => (⟨404, .errObj "Product not found"⟩, [StoreOp.findOne "products" id])
    | some p => (⟨200, .docObj p⟩, [StoreOp.findOne "products" id])
  else (⟨400, .errObj "Invalid product ID"⟩, [])

/-- POST /api/products; `freshId` is the identifier the store generates for
the insert. -/
def postProducts (products : Collection) (body : Doc) (freshId : String) :
    Response × Collection × List StoreOp :=
  match getField body "name", getField body "price", getField body "category" with
  | some name, some price, some category =>
    if truthy name && truthy price && truthy category then
      let newProduct : Doc := [("name", name), ("price", jsNumber price), ("category", category)]
      (⟨201, .createdObj "Product created" freshId⟩,
        insertOne products freshId newProduct,
        [StoreOp.insertOne "products" newProduct])
    else (⟨400, .errObj "Missing required fields"⟩, products, [])
  | _, _, _ => (⟨400, .errObj "Missing required fields"⟩, products, [])

/-- GET /api/items/:id. -/
def getItemById (items : Collection) (id : String) :
    Response × List StoreOp :=
  if ObjectId.isValid id then
    match findOne items id with
    | none => (⟨404, .errObj "Item not found"⟩, [StoreOp.findOne "items" id])
    | some it => (⟨200, .docObj it⟩, [StoreOp.findOne "items" id])
  else (⟨400, .errObj "Invalid item ID"⟩, [])

/-- POST /api/items handler (after the API-key gate); `freshId` is the
identifier the store generates for the insert. -/
def postItems (items : Collection) (body : Doc) (freshId : String) :
    Response × Collection × List StoreOp :=
  match getField body "name", getField body "description" with
  | some name, some description =>
    if truthy name && truthy description then
      let newItem : Doc := [("name", name), ("description", description)]
      (⟨201, .createdObj "Item created" freshId⟩,
        insertOne items freshId newItem,
        [StoreOp.insertOne "items" newItem])
    else (⟨400, .errObj "Missing required fields: name, description"⟩, items, [])
  | _, _ => (⟨400, .errObj "Missing required fields: name, description"⟩, items, [])

/-- PUT /api/items/:id handler (after the API-key gate). -/
def putItem (items : Collection) (id : String) (body : Doc) :
    Response × Collection × List StoreOp :=
  if ObjectId.isValid id then
    match getField body "name", getField body "description" with
    | some name, some description =>
      if truthy name && truthy description then
        let patch : Doc := [("name", name), ("description", description)]
        let r := updateOne items id patch
        if r.2 == 0 then
          (⟨404, .errObj "Item not found"⟩, r.1, [StoreOp.updateOne "items" id patch])
        else
          (⟨200, .msgObj "Item fully updated"⟩, r.1, [StoreOp.updateOne "items" id patch])
      else (⟨400, .errObj "PUT requires full item data: name, description"⟩, items, [])
    | _, _ => (⟨400, .errObj "PUT requires full item data: name, description"⟩, items, [])
  else (⟨400, .errObj "Invalid item ID"⟩, items, [])

/-- PATCH /api/items/:id handler (after the API-key gate). -/
def patchItem (items : Collection) (id : String) (body : Doc) :
    Response × Collection × List StoreOp :=
  if ObjectId.isValid id then
    if body.isEmpty then
      (⟨400, .errObj "No fields provided for update"⟩, items, [])
    else
      let r := updateOne items id body
      if r.2 == 0 then
        (⟨404, .errObj "Item not found"⟩, r.1, [StoreOp.updateOne "items" id body])
      else
        (⟨200, .msgObj "Item partially updated"⟩, r.1, [StoreOp.updateOne "items" id body])
  else (⟨400, .errObj "Invalid item ID"⟩, items, [])

/-- DELETE /api/items/:id handler (after the API-key gate). -/
def deleteItem (items : Collection) (id : String) :
    Response × Collection × List StoreOp :=
  if ObjectId.isValid id then
    let r := deleteOne items id
    if r.2 == 0 then
      (⟨404, .errObj "Item not found"⟩, r.1, [StoreOp.deleteOne "items" id])
    else
      (⟨204, .empty⟩, r.1, [StoreOp.deleteOne "items" id])
  else (⟨400, .errObj "Invalid item ID"⟩, items, [])

/-- POST /api/items as routed: `apiKeyMiddleware` runs before the handler. -/
def postItemsRoute (serverKey clientKey : Option String) (items : Collection)
    (body : Doc) (freshId : String) : Response × Collection × List StoreOp :=
  match apiKeyMiddleware clientKey serverKey with
  | some resp => (resp, items, [])
  | none => postItems items body freshId

/-- PUT /api/items/:id as routed: `apiKeyMiddleware` runs before the
handler. -/
def putItemRoute (serverKey clientKey : Option String) (items : Collection)
    (id : String) (body : Doc) : Response × Collection × List StoreOp :=
  match apiKeyMiddleware clientKey serverKey with
  | some resp => (resp, items, [])
  | none => putItem items id body

/-- PATCH /api/items/:id as routed: `apiKeyMiddleware` runs before the
handler. -/
def patchItemRoute (serverKey clientKey : Option String) (items : Collection)
    (id : String) (body : Doc) : Response × Collection × List StoreOp :=
  match apiKeyMiddleware clientKey serverKey with
  | some resp => (resp, items, [])
  | none => patchItem items id body

/-- DELETE /api/items/:id as routed: `apiKeyMiddleware` runs before the
handler. -/
def deleteItemRoute (serverKey clientKey : Option String) (items : Collection)
    (id : String) : Response × Collection × List StoreOp :=
  match apiKeyMiddleware clientKey serverKey with
  | some resp => (resp, items, [])
  | none => deleteItem items id

/-! ### Store lemmas -/

theorem findOne_append_self (c : Collection) (id : String) (d : Doc)
    (h : findOne c id = none) : findOne (c ++ [(id, d)]) id = some d := by
  induction c with
  | nil => simp [findOne]
  | cons e tl ih =>
    rw [List.cons_append]
    cases hk : (e.1 == id)
    · simp only [findOne, hk] at h ⊢
      simp at h ⊢
      exact ih h
    · simp only [findOne, hk] at h
      simp at h

theorem getField_isSome_of_mem (p : Doc) (kv : String × Val) (h : kv ∈ p) :
    (getField p kv.1).isSome = true := by
  induction p with
  | nil => simp at h
  | cons a tl ih =>
    cases ha : (a.1 == kv.1)
    · rcases List.mem_cons.mp h with heq | hmem
      · subst heq; simp at ha
      · simp only [getField, ha]
        simp
        exact ih hmem
    · simp [getField, ha]

theorem getField_append (p q : Doc) (k : String) :
    getField (p ++ q) k = (getField p k).or (getField q k) := by
  induction p with
  | nil => simp [getField]
  | cons a tl ih =>
    cases ha : (a.1 == k) <;> simp [getField, ha, ih]

theorem setMerge_idem (d p : Doc) : setMerge (setMerge d p) p = setMerge d p := by
  unfold setMerge
  rw [List.filter_append, List.filter_filter]
  have h1 : p.filter (fun kv => (getField p kv.1).isNone) = [] := by
    rw [List.filter_eq_nil_iff]
    intro a ha
    simp only [Option.isNone_iff_eq_none]
    intro hcon
    exact absurd (getField_isSome_of_mem p a ha) (by simp [hcon])
  have h2 : d.filter (fun kv => (getField p kv.1).isNone && (getField p kv.1).isNone)
      = d.filter (fun kv => (getField p kv.1).isNone) := by
    simp
  rw [h1, h2]
  simp

theorem getField_setMerge_some (d p : Doc) (k : String) (v : Val)
    (h : getField p k = some v) : getField (setMerge d p) k = some v := by
  unfold setMerge
  rw [getField_append, h]
  rfl

theorem getField_filter_keyfree (d p : Doc) (k : String) (h : getField p k = none) :
    getField (d.filter (fun kv => (getField p kv.1).isNone)) k = getField d k := by
  induction d with
  | nil => rfl
  | cons a tl ih =>
    cases ha : (a.1 == k)
    · cases hf : (getField p a.1).isNone <;>
        simp [getField, List.filter_cons, ha, hf, ih]
    · have hak : a.1 = k := by simpa using ha
      have : (getField p a.1).isNone = true := by rw [hak, h]; rfl
      simp [getField, List.filter_cons, ha, this]

theorem getField_setMerge_none (d p : Doc) (k : String)
    (h : getField p k = none) : getField (setMerge d p) k = getField d k := by
  unfold setMerge
  rw [getField_append, h, Option.none_or]
  exact getField_filter_keyfree d p k h

theorem findOne_map_updF_self (id : String) (p : Doc) (c : Collection) (d : Doc)
    (h : findOne c id = some d) :
    findOne (c.map (updF id p)) id = some (setMerge d p) := by
  induction c with
  | nil => simp [findOne] at h
  | cons e tl ih =>
    cases hk : (e.1 == id)
    · simp only [findOne, hk] at h
      simp at h
      have he : updF id p e = e := by simp [updF, hk]
      simp only [List.map_cons, findOne, he, hk]
      simp
      exact ih h
    · simp only [findOne, hk] at h
      simp at h
      have he : updF id p e = (e.1, setMerge e.2 p) := by simp [updF, hk]
      simp only [List.map_cons, findOne, he, hk]
      simp [h]

theorem findOne_map_updF_other (id id2 : String) (p : Doc) (c : Collection)
    (hne : id2 ≠ id) :
    findOne (c.map (updF id p)) id2 = findOne c id2 := by
  induction c with
  | nil => simp [findOne]
  | cons e tl ih =>
    cases hk : (e.1 == id)
    · have he : updF id p e = e := by simp [updF, hk]
      cases hq : (e.1 == id2) <;>
        simp [List.map_cons, findOne, he, hq, ih]
    · have hkid : e.1 = id := by simpa using hk
      have hk2 : (e.1 == id2) = false := by
        rw [hkid]
        simp only [beq_eq_false_iff_ne, ne_eq]
        exact fun hcon => hne hcon.symm
      have he : updF id p e = (e.1, setMerge e.2 p) := by simp [updF, hk]
      simp [List.map_cons, findOne, he, hk2, ih]

theorem updF_idem (id : String) (p : Doc) (e : String × Doc) :
    updF id p (updF id p e) = updF id p e := by
  cases hk : (e.1 == id)
  · simp [updF, hk]
  · simp [updF, hk, setMerge_idem]

theorem updateOne_spec (c : Collection) (id : String) (p : Doc) (d : Doc)
    (h : findOne c id = some d) :
    (updateOne c id p).2 = 1 ∧
    findOne (updateOne c id p).1 id = some (setMerge d p) ∧
    (∀ id2, id2 ≠ id → findOne (updateOne c id p).1 id2 = findOne c id2) := by
  have hs : (findOne c id).isSome = true := by rw [h]; rfl
  unfold updateOne
  rw [if_pos hs]
  exact ⟨rfl, findOne_map_updF_self id p c d h,
    fun id2 hne => findOne_map_updF_other id id2 p c hne⟩

theorem updateOne_not_found (c : Collection) (id : String) (p : Doc)
    (h : findOne c id = none) : updateOne c id p = (c, 0) := by
  unfold updateOne
  rw [h]
  rfl

theorem updateOne_idem (c : Collection) (id : String) (p : Doc) (d : Doc)
    (h : findOne c id = some d) :
    updateOne (updateOne c id p).1 id p = updateOne c id p := by
  obtain ⟨hcount, hfind, hother⟩ := updateOne_spec c id p d h
  have hs : (findOne c id).isSome = true := by rw [h]; rfl
  have hc1 : updateOne c id p = (c.map (updF id p), 1) := by
    unfold updateOne
    rw [if_pos hs]
  have hs1 : (findOne (updateOne c id p).1 id).isSome = true := by
    rw [hfind]; rfl
  rw [hc1] at hs1 ⊢
  unfold updateOne
  rw [if_pos hs1]
  have hmm : (c.map (updF id p)).map (updF id p) = c.map (updF id p) := by
    rw [List.map_map]
    exact List.map_congr_left (fun a _ => updF_idem id p a)
  show ((c.map (updF id p)).map (updF id p), 1) = (c.map (updF id p), 1)
  rw [hmm]

theorem findOne_filter_ne (c : Collection) (id : String) :
    findOne (c.filter (fun e => e.1 != id)) id = none := by
  induction c with
  | nil => rfl
  | cons e tl ih =>
    by_cases hk : e.1 = id <;> simp [List.filter_cons, findOne, hk, ih]

theorem findOne_filter_other (c : Collection) (id id2 : String) (hne : id2 ≠ id) :
    findOne (c.filter (fun e => e.1 != id)) id2 = findOne c id2 := by
  induction c with
  | nil => rfl
  | cons e tl ih =>
    by_cases hk : e.1 = id
    · simp [List.filter_cons, findOne, hk, Ne.symm hne, ih]
    · by_cases hq : e.1 = id2 <;> simp [List.filter_cons, findOne, hk, hq, hne, ih]

/-! ### Claims -/

/-- C1: For every identifier-keyed route (GET /api/products/:id,
GET/PUT/PATCH/DELETE /api/items/:id) and every path identifier that is not a
24-character hex string, the handler responds 400, issues no store
operation, and leaves the store unchanged: no document is read or mutated. -/
theorem invalidId_all_routes_400_no_store_call
    (id : String) (h : ObjectId.isValid id = false)
    (products items : Collection) (body : Doc) :
    getProductById products id = (⟨400, .errObj "Invalid product ID"⟩, []) ∧
    getItemById items id = (⟨400, .errObj "Invalid item ID"⟩, []) ∧
    putItem items id body = (⟨400, .errObj "Invalid item ID"⟩, items, []) ∧
    patchItem items id body = (⟨400, .errObj "Invalid item ID"⟩, items, []) ∧
    deleteItem items id = (⟨400, .errObj "Invalid item ID"⟩, items, []) := by
  simp [getProductById, getItemById, putItem, patchItem, deleteItem, h]

/-- Witness for C1 at the concrete malformed identifier "not-an-id". -/
theorem invalidId_all_routes_400_no_store_call_witness :
    getItemById [] "not-an-id" = (⟨400, .errObj "Invalid item ID"⟩, []) ∧
    deleteItem [] "not-an-id" = (⟨400, .errObj "Invalid item ID"⟩, [], []) := by
  have h := invalidId_all_routes_400_no_store_call "not-an-id" (by decide) [] [] []
  exact ⟨h.2.1, h.2.2.2.2⟩

/-- C2 counterexample: with a secret configured and the x-api-key header
present carrying the empty string, POST /api/items responds 401, not the
403 the claim requires for every present-but-not-equal header value. -/
theorem apiKey_present_empty_gets_401_not_403 :
    postItemsRoute (some "server-secret") (some "") [] [] "cccccccccccccccccccccccc"
      = (⟨401, .errObj "Unauthorized: API key missing"⟩, [], []) ∧
    (401 : Nat) ≠ 403 := by
  constructor
  · rfl
  · decide

/-- C2 (amended): on the four items-mutation routes the gate decides first:
an absent or empty x-api-key header gets 401; a present non-empty header
differing from the configured secret gets 403 — both before any identifier
or body validation and with no store call; only a present non-empty header
equal to the secret lets the request reach the route handler. -/
theorem apiKey_gate_decides_first_amended (serverKey clientKey : Option String)
    (items : Collection) (body : Doc) (freshId id : String) :
    (truthyStr clientKey = false →
      postItemsRoute serverKey clientKey items body freshId
        = (⟨401, .errObj "Unauthorized: API key missing"⟩, items, []) ∧
      putItemRoute serverKey clientKey items id body
        = (⟨401, .errObj "Unauthorized: API key missing"⟩, items, []) ∧
      patchItemRoute serverKey clientKey items id body
        = (⟨401, .errObj "Unauthorized: API key missing"⟩, items, []) ∧
      deleteItemRoute serverKey clientKey items id
        = (⟨401, .errObj "Unauthorized: API key missing"⟩, items, [])) ∧
    (truthyStr clientKey = true → clientKey ≠ serverKey →
      postItemsRoute serverKey clientKey items body freshId
        = (⟨403, .errObj "Forbidden: Invalid API key"⟩, items, []) ∧
      putItemRoute serverKey clientKey items id body
        = (⟨403, .errObj "Forbidden: Invalid API key"⟩, items, []) ∧
      patchItemRoute serverKey clientKey items id body
        = (⟨403, .errObj "Forbidden: Invalid API key"⟩, items, []) ∧
      deleteItemRoute serverKey clientKey items id
        = (⟨403, .errObj "Forbidden: Invalid API key"⟩, items, [])) ∧
    (truthyStr clientKey = true → clientKey = serverKey →
      postItemsRoute serverKey clientKey items body freshId = postItems items body freshId ∧
      putItemRoute serverKey clientKey items id body = putItem items id body ∧
      patchItemRoute serverKey clientKey items id body = patchItem items id body ∧
      deleteItemRoute serverKey clientKey items id = deleteItem items id) := by
  refine ⟨fun hck => ?_, fun hck hne => ?_, fun hck heq => ?_⟩
  · simp [postItemsRoute, putItemRoute, patchItemRoute, deleteItemRoute,
      apiKeyMiddleware, hck]
  · simp [postItemsRoute, putItemRoute, patchItemRoute, deleteItemRoute,
      apiKeyMiddleware, hck, bne_iff_ne, hne]
  · subst heq
    simp [postItemsRoute, putItemRoute, patchItemRoute, deleteItemRoute,
      apiKeyMiddleware, hck]

/-- Witness for the amended C2: each gate outcome at a concrete input. -/
theorem apiKey_gate_decides_first_amended_witness :
    putItemRoute (some "sk") none [] "x" []
      = (⟨401, .errObj "Unauthorized: API key missing"⟩, [], []) ∧
    putItemRoute (some "sk") (some "wrong") [] "x" []
      = (⟨403, .errObj "Forbidden: Invalid API key"⟩, [], []) ∧
    postItemsRoute (some "sk") (some "sk") [] [] "f" = postItems [] [] "f" := by
  refine ⟨?_, ?_, ?_⟩
  · exact ((apiKey_gate_decides_first_amended (some "sk") none [] [] "f" "x").1
      (by decide)).2.1
  · exact ((apiKey_gate_decides_first_amended (some "sk") (some "wrong") [] [] "f" "x").2.1
      (by decide) (by decide)).2.1
  · exact ((apiKey_gate_decides_first_amended (some "sk") (some "sk") [] [] "f" "x").2.2
      (by decide) rfl).1

/-- C9 counterexample: with the API-key environment value unset, a request
whose x-api-key header is present carrying the empty string gets 401, not
the 403 the claim asserts for a header present with any value whatsoever. -/
theorem apiKey_unset_present_empty_gets_401_not_403 :
    patchItemRoute none (some "") [] "dddddddddddddddddddddddd" [("name", Val.str "x")]
      = (⟨401, .errObj "Unauthorized: API key missing"⟩, [], []) ∧
    (401 : Nat) ≠ 403 := by
  constructor
  · rfl
  · decide

/-- C9 (amended): if the configured API-key environment value is unset,
every request to the four items-mutation routes is rejected by the gate —
401 when the x-api-key header is absent or empty, 403 when it is present
non-empty — so no items-mutation handler ever runs in that configuration:
the store is untouched and no store call is made. -/
theorem apiKey_unset_rejects_all_amended (clientKey : Option String)
    (items : Collection) (body : Doc) (freshId id : String) :
    (postItemsRoute none clientKey items body freshId).1.status
      = (if truthyStr clientKey then 403 else 401) ∧
    (postItemsRoute none clientKey items body freshId).2 = (items, []) ∧
    (putItemRoute none clientKey items id body).1.status
      = (if truthyStr clientKey then 403 else 401) ∧
    (putItemRoute none clientKey items id body).2 = (items, []) ∧
    (patchItemRoute none clientKey items id body).1.status
      = (if truthyStr clientKey then 403 else 401) ∧
    (patchItemRoute none clientKey items id body).2 = (items, []) ∧
    (deleteItemRoute none clientKey items id).1.status
      = (if truthyStr clientKey then 403 else 401) ∧
    (deleteItemRoute none clientKey items id).2 = (items, []) := by
  cases hck : truthyStr clientKey
  · simp [postItemsRoute, putItemRoute, patchItemRoute, deleteItemRoute,
      apiKeyMiddleware, hck]
  · have hne : clientKey ≠ none := by
      cases clientKey
      · simp [truthyStr] at hck
      · simp
    simp [postItemsRoute, putItemRoute, patchItemRoute, deleteItemRoute,
      apiKeyMiddleware, hck, bne_iff_ne, hne]

/-- C5 counterexample: the category parameter given as the empty string
produces no category predicate in the filter, refuting "contains a category
equality predicate iff the category parameter is given". -/
theorem productsQuery_empty_category_no_predicate :
    (buildProductsQuery (some "") none none none).categoryEq = none ∧
    some "" ≠ (none : Option String) := by
  constructor
  · rfl
  · decide

/-- C5 (amended): the products-listing query has a category equality
predicate iff category is given non-empty (then equal to it), a price
lower-bound predicate iff minPrice is given non-empty (then the numeric
coercion of minPrice, combined independently with the category predicate),
a projection iff fields is given non-empty (then exactly the
comma-separated names), and the ascending price sort iff sort is exactly
"price". -/
theorem productsQuery_built_amended
    (category minPrice sort fields : Option String)
    (c m f : String) (hc : c ≠ "") (hm : m ≠ "") (hf : f ≠ "") :
    (buildProductsQuery (some c) minPrice sort fields).categoryEq = some c ∧
    (buildProductsQuery none minPrice sort fields).categoryEq = none ∧
    (buildProductsQuery (some "") minPrice sort fields).categoryEq = none ∧
    (buildProductsQuery category (some m) sort fields).priceGte
      = some (jsNumber (Val.str m)) ∧
    (buildProductsQuery category none sort fields).priceGte = none ∧
    (buildProductsQuery category (some "") sort fields).priceGte = none ∧
    (buildProductsQuery category minPrice sort (some f)).projection
      = some (f.splitOn ",") ∧
    (buildProductsQuery category minPrice sort none).projection = none ∧
    (buildProductsQuery category minPrice sort (some "")).projection = none ∧
    ((buildProductsQuery category minPrice sort fields).sortPriceAsc = true
      ↔ sort = some "price") := by
  refine ⟨?_, rfl, rfl, ?_, rfl, rfl, ?_, rfl, rfl, ?_⟩
  · simp [buildProductsQuery, truthyStr, hc]
  · simp [buildProductsQuery, hm]
  · simp [buildProductsQuery, hf]
  · simp [buildProductsQuery]

/-- Witness for the amended C5 at the spec's scenario parameters. -/
theorem productsQuery_built_amended_witness :
    (buildProductsQuery (some "office") (some "5") (some "price") (some "name")).categoryEq
      = some "office" ∧
    (buildProductsQuery (some "office") (some "5") (some "price") (some "name")).priceGte
      = some (jsNumber (Val.str "5")) ∧
    (buildProductsQuery (some "office") (some "5") (some "price") (some "name")).projection
      = some ("name".splitOn ",") ∧
    ((buildProductsQuery (some "office") (some "5") (some "price") (some "name")).sortPriceAsc
      = true ↔ some "price" = some "price") := by
  have h := productsQuery_built_amended (some "office") (some "5") (some "price")
    (some "name") "office" "5" "name" (by decide) (by decide) (by decide)
  exact ⟨h.1, h.2.2.2.1, h.2.2.2.2.2.2.1, by simp [h.2.2.2.2.2.2.2.2.2]⟩

/-- C10: POST /api/items and PUT /api/items/:id write only the name and
description fields: the stored insert is built from exactly those two body
fields, the PUT $set patch is exactly those two fields, and any other field
of an existing document survives the PUT untouched while extra body fields
are never stored or merged. -/
theorem items_write_only_name_description
    (items : Collection) (body : Doc) (freshId id : String)
    (name description : Val)
    (hn : getField body "name" = some name)
    (hd : getField body "description" = some description)
    (htn : truthy name = true) (htd : truthy description = true)
    (hid : ObjectId.isValid id = true) (d : Doc)
    (hex : findOne items id = some d) :
    (postItems items body freshId).2
      = (insertOne items freshId [("name", name), ("description", description)],
         [StoreOp.insertOne "items" [("name", name), ("description", description)]]) ∧
    (putItem items id body).2
      = ((updateOne items id [("name", name), ("description", description)]).1,
         [StoreOp.updateOne "items" id [("name", name), ("description", description)]]) ∧
    (∀ k, k ≠ "name" → k ≠ "description" →
      getField (setMerge d [("name", name), ("description", description)]) k
        = getField d k) := by
  refine ⟨?_, ?_, ?_⟩
  · simp [postItems, hn, hd, htn, htd]
  · have hs : (findOne items id).isSome = true := by rw [hex]; rfl
    simp [putItem, hn, hd, htn, htd, hid, updateOne, hs]
  · intro k hk1 hk2
    apply getField_setMerge_none
    simp [getField, Ne.symm hk1, Ne.symm hk2]

/-- Witness for C10 at a body carrying the extra field "color" and an
existing document with a "stock" field. -/
theorem items_write_only_name_description_witness :
    (postItems [("aaaaaaaaaaaaaaaaaaaaaaaa", [("stock", Val.num 5)])]
        [("name", Val.str "a"), ("description", Val.str "b"), ("color", Val.str "red")]
        "eeeeeeeeeeeeeeeeeeeeeeee").2
      = (insertOne [("aaaaaaaaaaaaaaaaaaaaaaaa", [("stock", Val.num 5)])]
          "eeeeeeeeeeeeeeeeeeeeeeee"
          [("name", Val.str "a"), ("description", Val.str "b")],
         [StoreOp.insertOne "items" [("name", Val.str "a"), ("description", Val.str "b")]]) ∧
    getField (setMerge [("stock", Val.num 5)]
        [("name", Val.str "a"), ("description", Val.str "b")]) "stock"
      = getField [("stock", Val.num 5)] "stock" := by
  have h := items_write_only_name_description
    [("aaaaaaaaaaaaaaaaaaaaaaaa", [("stock", Val.num 5)])]
    [("name", Val.str "a"), ("description", Val.str "b"), ("color", Val.str "red")]
    "eeeeeeeeeeeeeeeeeeeeeeee" "aaaaaaaaaaaaaaaaaaaaaaaa"
    (Val.str "a") (Val.str "b") rfl rfl rfl rfl (by decide)
    [("stock", Val.num 5)] rfl
  exact ⟨h.1, h.2.2 "stock" (by decide) (by decide)⟩

/-- C3 counterexample: a valid product create whose body carries the extra
field "color"; the immediate GET on the returned identifier yields the
stored document, which lacks the submitted "color" field — so the response
does not contain exactly the submitted body fields plus the identifier. -/
theorem create_roundtrip_extra_field_dropped :
    getField [("name", Val.str "Pen"), ("price", Val.str "10"),
      ("category", Val.str "office"), ("color", Val.str "red")] "color"
      = some (Val.str "red") ∧
    (postProducts [] [("name", Val.str "Pen"), ("price", Val.str "10"),
      ("category", Val.str "office"), ("color", Val.str "red")]
      "aaaaaaaaaaaaaaaaaaaaaaaa").1.status = 201 ∧
    (getProductById (postProducts [] [("name", Val.str "Pen"), ("price", Val.str "10"),
      ("category", Val.str "office"), ("color", Val.str "red")]
      "aaaaaaaaaaaaaaaaaaaaaaaa").2.1 "aaaaaaaaaaaaaaaaaaaaaaaa").1
      = ⟨200, .docObj [("_id", Val.str "aaaaaaaaaaaaaaaaaaaaaaaa"),
          ("name", Val.str "Pen"), ("price", Val.num 10),
          ("category", Val.str "office")]⟩ ∧
    getField [("_id", Val.str "aaaaaaaaaaaaaaaaaaaaaaaa"),
      ("name", Val.str "Pen"), ("price", Val.num 10),
      ("category", Val.str "office")] "color" = none := by
  refine ⟨rfl, rfl, ?_, rfl⟩
  rfl

/-- C3 (amended): for every valid create, the identifier of the 201
response, used immediately in a GET, returns the just-created document
containing exactly the identifier plus the fields the handler extracts from
the body — name, numerically-coerced price and category for a product;
name and description for an item — which are exactly the submitted body
fields whenever the body contains only those fields. -/
theorem create_roundtrip_amended
    (products items : Collection) (pbody ibody : Doc) (pid iid : String)
    (hpid : ObjectId.isValid pid = true) (hiid : ObjectId.isValid iid = true)
    (hpfresh : findOne products pid = none) (hifresh : findOne items iid = none)
    (pname pprice pcat iname idesc : Val)
    (hn : getField pbody "name" = some pname)
    (hp : getField pbody "price" = some pprice)
    (hc : getField pbody "category" = some pcat)
    (htn : truthy pname = true) (htp : truthy pprice = true)
    (htc : truthy pcat = true)
    (hin : getField ibody "name" = some iname)
    (hde : getField ibody "description" = some idesc)
    (hti : truthy iname = true) (htd : truthy idesc = true) :
    (postProducts products pbody pid).1 = ⟨201, .createdObj "Product created" pid⟩ ∧
    (getProductById (postProducts products pbody pid).2.1 pid).1
      = ⟨200, .docObj [("_id", Val.str pid), ("name", pname),
          ("price", jsNumber pprice), ("category", pcat)]⟩ ∧
    (postItems items ibody iid).1 = ⟨201, .createdObj "Item created" iid⟩ ∧
    (getItemById (postItems items ibody iid).2.1 iid).1
      = ⟨200, .docObj [("_id", Val.str iid), ("name", iname),
          ("description", idesc)]⟩ := by
  have hp1 : (postProducts products pbody pid).2.1
      = products ++ [(pid, [("_id", Val.str pid), ("name", pname),
          ("price", jsNumber pprice), ("category", pcat)])] := by
    simp [postProducts, hn, hp, hc, htn, htp, htc, insertOne]
  have hi1 : (postItems items ibody iid).2.1
      = items ++ [(iid, [("_id", Val.str iid), ("name", iname),
          ("description", idesc)])] := by
    simp [postItems, hin, hde, hti, htd, insertOne]
  refine ⟨?_, ?_, ?_, ?_⟩
  · simp [postProducts, hn, hp, hc, htn, htp, htc]
  · rw [hp1]
    simp [getProductById, hpid, findOne_append_self products pid _ hpfresh]
  · simp [postItems, hin, hde, hti, htd]
  · rw [hi1]
    simp [getItemById, hiid, findOne_append_self items iid _ hifresh]

/-- Witness for the amended C3 at the spec's Pen scenario plus an item
create. -/
theorem create_roundtrip_amended_witness :
    (postProducts [] [("name", Val.str "Pen"), ("price", Val.str "10"),
      ("category", Val.str "office")] "bbbbbbbbbbbbbbbbbbbbbbbb").1
      = ⟨201, .createdObj "Product created" "bbbbbbbbbbbbbbbbbbbbbbbb"⟩ ∧
    (getProductById (postProducts [] [("name", Val.str "Pen"),
      ("price", Val.str "10"), ("category", Val.str "office")]
      "bbbbbbbbbbbbbbbbbbbbbbbb").2.1 "bbbbbbbbbbbbbbbbbbbbbbbb").1
      = ⟨200, .docObj [("_id", Val.str "bbbbbbbbbbbbbbbbbbbbbbbb"),
          ("name", Val.str "Pen"), ("price", jsNumber (Val.str "10")),
          ("category", Val.str "office")]⟩ ∧
    jsNumber (Val.str "10") = Val.num 10 ∧
    (getItemById (postItems [] [("name", Val.str "chair"),
      ("description", Val.str "wooden")] "cccccccccccccccccccccccc").2.1
      "cccccccccccccccccccccccc").1
      = ⟨200, .docObj [("_id", Val.str "cccccccccccccccccccccccc"),
          ("name", Val.str "chair"), ("description", Val.str "wooden")]⟩ := by
  have h := create_roundtrip_amended [] [] 
    [("name", Val.str "Pen"), ("price", Val.str "10"), ("category", Val.str "office")]
    [("name", Val.str "chair"), ("description", Val.str "wooden")]
    "bbbbbbbbbbbbbbbbbbbbbbbb" "cccccccccccccccccccccccc"
    (by decide) (by decide) rfl rfl
    (Val.str "Pen") (Val.str "10") (Val.str "office")
    (Val.str "chair") (Val.str "wooden")
    rfl rfl rfl rfl rfl rfl rfl rfl rfl rfl
  exact ⟨h.1, h.2.1, rfl, h.2.2.2⟩

/-- C4 counterexample: a PUT whose body carries the extra field "color"
alongside name and description; the update succeeds but the stored document
does not receive "color", refuting "a $set-style merge of exactly the
fields provided in the request body". -/
theorem put_extra_field_not_merged :
    getField [("name", Val.str "a"), ("description", Val.str "b"),
      ("color", Val.str "red")] "color" = some (Val.str "red") ∧
    (putItem [("aaaaaaaaaaaaaaaaaaaaaaaa", [("stock", Val.num 5)])]
      "aaaaaaaaaaaaaaaaaaaaaaaa"
      [("name", Val.str "a"), ("description", Val.str "b"),
        ("color", Val.str "red")]).1.status = 200 ∧
    findOne (putItem [("aaaaaaaaaaaaaaaaaaaaaaaa", [("stock", Val.num 5)])]
      "aaaaaaaaaaaaaaaaaaaaaaaa"
      [("name", Val.str "a"), ("description", Val.str "b"),
        ("color", Val.str "red")]).2.1 "aaaaaaaaaaaaaaaaaaaaaaaa"
      = some [("name", Val.str "a"), ("description", Val.str "b"),
          ("stock", Val.num 5)] ∧
    getField [("name", Val.str "a"), ("description", Val.str "b"),
      ("stock", Val.num 5)] "color" = none := by
  exact ⟨rfl, rfl, rfl, rfl⟩

/-- C4 (amended): a PUT with a valid identifier and truthy name and
description applies a $set merge of exactly the name and description fields
extracted from the body: those two are set, every field of the existing
document other than name and description is left untouched (extra body
fields are not merged), and every other document is unchanged. -/
theorem put_merges_exactly_name_description_amended
    (items : Collection) (id : String) (body : Doc)
    (hid : ObjectId.isValid id = true)
    (name description : Val)
    (hn : getField body "name" = some name)
    (hd : getField body "description" = some description)
    (htn : truthy name = true) (htd : truthy description = true)
    (d : Doc) (hex : findOne items id = some d) :
    (putItem items id body).1 = ⟨200, .msgObj "Item fully updated"⟩ ∧
    findOne (putItem items id body).2.1 id
      = some (setMerge d [("name", name), ("description", description)]) ∧
    getField (setMerge d [("name", name), ("description", description)]) "name"
      = some name ∧
    getField (setMerge d [("name", name), ("description", description)]) "description"
      = some description ∧
    (∀ k, k ≠ "name" → k ≠ "description" →
      getField (setMerge d [("name", name), ("description", description)]) k
        = getField d k) ∧
    (∀ id2, id2 ≠ id → findOne (putItem items id body).2.1 id2 = findOne items id2) := by
  obtain ⟨hcount, hfind, hother⟩ :=
    updateOne_spec items id [("name", name), ("description", description)] d hex
  have hput : putItem items id body
      = (⟨200, .msgObj "Item fully updated"⟩,
         (updateOne items id [("name", name), ("description", description)]).1,
         [StoreOp.updateOne "items" id [("name", name), ("description", description)]]) := by
    simp [putItem, hid, hn, hd, htn, htd, hcount]
  refine ⟨by rw [hput], by rw [hput]; exact hfind, ?_, ?_, ?_, ?_⟩
  · exact getField_setMerge_some d _ "name" name rfl
  · exact getField_setMerge_some d _ "description" description rfl
  · intro k hk1 hk2
    apply getField_setMerge_none
    simp [getField, Ne.symm hk1, Ne.symm hk2]
  · intro id2 hne
    rw [hput]
    exact hother id2 hne

/-- Witness for the amended C4: a body with the extra field "color"
against a document holding a "stock" field. -/
theorem put_merges_exactly_name_description_amended_witness :
    (putItem [("aaaaaaaaaaaaaaaaaaaaaaaa", [("stock", Val.num 5)])]
      "aaaaaaaaaaaaaaaaaaaaaaaa"
      [("name", Val.str "a"), ("description", Val.str "b"),
        ("color", Val.str "red")]).1 = ⟨200, .msgObj "Item fully updated"⟩ ∧
    getField (setMerge [("stock", Val.num 5)]
      [("name", Val.str "a"), ("description", Val.str "b")]) "stock"
      = getField [("stock", Val.num 5)] "stock" := by
  have h := put_merges_exactly_name_description_amended
    [("aaaaaaaaaaaaaaaaaaaaaaaa", [("stock", Val.num 5)])]
    "aaaaaaaaaaaaaaaaaaaaaaaa"
    [("name", Val.str "a"), ("description", Val.str "b"), ("color", Val.str "red")]
    (by decide) (Val.str "a") (Val.str "b") rfl rfl rfl rfl
    [("stock", Val.num 5)] rfl
  exact ⟨h.1, h.2.2.2.2.1 "stock" (by decide) (by decide)⟩

/-- C6: PATCH with a valid identifier: an empty body yields 400 with no
store call and an unchanged store; a non-empty body against an existing
document merges every provided field verbatim (unknown field names
included) into it, leaving unprovided fields unchanged. -/
theorem patch_empty_400_nonempty_merges_all
    (items : Collection) (id : String) (body d : Doc)
    (hid : ObjectId.isValid id = true) :
    patchItem items id [] = (⟨400, .errObj "No fields provided for update"⟩, items, []) ∧
    (body ≠ [] → findOne items id = some d →
      (patchItem items id body).1 = ⟨200, .msgObj "Item partially updated"⟩ ∧
      findOne (patchItem items id body).2.1 id = some (setMerge d body) ∧
      (∀ k v, getField body k = some v → getField (setMerge d body) k = some v) ∧
      (∀ k, getField body k = none → getField (setMerge d body) k = getField d k)) := by
  constructor
  · simp [patchItem, hid]
  · intro hne hex
    obtain ⟨hcount, hfind, hother⟩ := updateOne_spec items id body d hex
    have hbody : body.isEmpty = false := by
      cases body
      · exact absurd rfl hne
      · rfl
    refine ⟨?_, ?_, ?_, ?_⟩
    · simp [patchItem, hid, hbody, hcount]
    · simp [patchItem, hid, hbody, hcount]
      exact hfind
    · exact fun k v h => getField_setMerge_some d body k v h
    · exact fun k h => getField_setMerge_none d body k h

/-- Witness for C6: the empty-body 400 and a one-field merge with the
unknown field name "color". -/
theorem patch_empty_400_nonempty_merges_all_witness :
    patchItem [("aaaaaaaaaaaaaaaaaaaaaaaa", [("name", Val.str "old")])]
      "aaaaaaaaaaaaaaaaaaaaaaaa" []
      = (⟨400, .errObj "No fields provided for update"⟩,
         [("aaaaaaaaaaaaaaaaaaaaaaaa", [("name", Val.str "old")])], []) ∧
    getField (setMerge [("name", Val.str "old")] [("color", Val.str "red")]) "color"
      = some (Val.str "red") ∧
    getField (setMerge [("name", Val.str "old")] [("color", Val.str "red")]) "name"
      = getField [("name", Val.str "old")] "name" := by
  have h := patch_empty_400_nonempty_merges_all
    [("aaaaaaaaaaaaaaaaaaaaaaaa", [("name", Val.str "old")])]
    "aaaaaaaaaaaaaaaaaaaaaaaa" [("color", Val.str "red")]
    [("name", Val.str "old")] (by decide)
  have h2 := h.2 (by decide) rfl
  exact ⟨h.1, h2.2.2.1 "color" (Val.str "red") rfl, h2.2.2.2 "name" rfl⟩

/-- C7: DELETE with a valid identifier and the correct key issues exactly
one store call, the deleteOne itself (no prior existence read): a zero
deleted count is the sole signal producing 404 with the store unchanged;
otherwise the matching document is removed, the response is 204 with an
empty body, and an immediate GET on the same identifier yields 404. -/
theorem delete_204_removes_then_get_404
    (sk : String) (hsk : sk ≠ "")
    (items : Collection) (id : String) (hid : ObjectId.isValid id = true)
    (d : Doc) :
    (findOne items id = none →
      deleteItemRoute (some sk) (some sk) items id
        = (⟨404, .errObj "Item not found"⟩, items, [StoreOp.deleteOne "items" id])) ∧
    (findOne items id = some d →
      deleteItemRoute (some sk) (some sk) items id
        = (⟨204, .empty⟩, items.filter (fun e => e.1 != id),
           [StoreOp.deleteOne "items" id]) ∧
      findOne (deleteItemRoute (some sk) (some sk) items id).2.1 id = none ∧
      (getItemById (deleteItemRoute (some sk) (some sk) items id).2.1 id).1
        = ⟨404, .errObj "Item not found"⟩) := by
  have hmw : apiKeyMiddleware (some sk) (some sk) = none := by
    simp [apiKeyMiddleware, truthyStr, hsk]
  constructor
  · intro hnone
    simp [deleteItemRoute, hmw, deleteItem, hid, deleteOne, hnone]
  · intro hex
    have hs : (findOne items id).isSome = true := by rw [hex]; rfl
    have hroute : deleteItemRoute (some sk) (some sk) items id
        = (⟨204, .empty⟩, items.filter (fun e => e.1 != id),
           [StoreOp.deleteOne "items" id]) := by
      simp [deleteItemRoute, hmw, deleteItem, hid, deleteOne, hs]
    refine ⟨hroute, ?_, ?_⟩
    · rw [hroute]
      exact findOne_filter_ne items id
    · rw [hroute]
      simp [getItemById, hid, findOne_filter_ne items id]

/-- Witness for C7: deleting the only document, then the 404 case on the
now-empty store. -/
theorem delete_204_removes_then_get_404_witness :
    deleteItemRoute (some "sk") (some "sk")
      [("aaaaaaaaaaaaaaaaaaaaaaaa", [("name", Val.str "x")])]
      "aaaaaaaaaaaaaaaaaaaaaaaa"
      = (⟨204, .empty⟩, [], [StoreOp.deleteOne "items" "aaaaaaaaaaaaaaaaaaaaaaaa"]) ∧
    (getItemById (deleteItemRoute (some "sk") (some "sk")
      [("aaaaaaaaaaaaaaaaaaaaaaaa", [("name", Val.str "x")])]
      "aaaaaaaaaaaaaaaaaaaaaaaa").2.1 "aaaaaaaaaaaaaaaaaaaaaaaa").1
      = ⟨404, .errObj "Item not found"⟩ ∧
    deleteItemRoute (some "sk") (some "sk") [] "aaaaaaaaaaaaaaaaaaaaaaaa"
      = (⟨404, .errObj "Item not found"⟩, [],
         [StoreOp.deleteOne "items" "aaaaaaaaaaaaaaaaaaaaaaaa"]) := by
  have h := delete_204_removes_then_get_404 "sk" (by decide)
    [("aaaaaaaaaaaaaaaaaaaaaaaa", [("name", Val.str "x")])]
    "aaaaaaaaaaaaaaaaaaaaaaaa" (by decide) [("name", Val.str "x")]
  have h2 := h.2 rfl
  have hempty := delete_204_removes_then_get_404 "sk" (by decide) []
    "aaaaaaaaaaaaaaaaaaaaaaaa" (by decide) []
  exact ⟨h2.1, h2.2.2, hempty.1 rfl⟩

/-- C8: for an existing item, issuing the same valid PUT (correct key,
truthy name and description) twice in succession returns 200 both times
and yields exactly the same final collection state as issuing it once. -/
theorem put_twice_idempotent
    (sk : String) (hsk : sk ≠ "")
    (items : Collection) (id : String) (hid : ObjectId.isValid id = true)
    (body : Doc) (name description : Val)
    (hn : getField body "name" = some name)
    (hd : getField body "description" = some description)
    (htn : truthy name = true) (htd : truthy description = true)
    (d : Doc) (hex : findOne items id = some d) :
    (putItemRoute (some sk) (some sk) items id body).1.status = 200 ∧
    (putItemRoute (some sk) (some sk)
      (putItemRoute (some sk) (some sk) items id body).2.1 id body).1.status = 200 ∧
    (putItemRoute (some sk) (some sk)
      (putItemRoute (some sk) (some sk) items id body).2.1 id body).2.1
      = (putItemRoute (some sk) (some sk) items id body).2.1 := by
  have hmw : apiKeyMiddleware (some sk) (some sk) = none := by
    simp [apiKeyMiddleware, truthyStr, hsk]
  obtain ⟨hcount, hfind, hother⟩ :=
    updateOne_spec items id [("name", name), ("description", description)] d hex
  have hput : putItemRoute (some sk) (some sk) items id body
      = (⟨200, .msgObj "Item fully updated"⟩,
         (updateOne items id [("name", name), ("description", description)]).1,
         [StoreOp.updateOne "items" id [("name", name), ("description", description)]]) := by
    simp [putItemRoute, hmw, putItem, hid, hn, hd, htn, htd, hcount]
  obtain ⟨hcount2, hfind2, hother2⟩ :=
    updateOne_spec (updateOne items id [("name", name), ("description", description)]).1
      id [("name", name), ("description", description)]
      (setMerge d [("name", name), ("description", description)]) hfind
  have hput2 : putItemRoute (some sk) (some sk)
      (updateOne items id [("name", name), ("description", description)]).1 id body
      = (⟨200, .msgObj "Item fully updated"⟩,
         (updateOne (updateOne items id [("name", name), ("description", description)]).1
           id [("name", name), ("description", description)]).1,
         [StoreOp.updateOne "items" id [("name", name), ("description", description)]]) := by
    simp [putItemRoute, hmw, putItem, hid, hn, hd, htn, htd, hcount2]
  have hidem := updateOne_idem items id [("name", name), ("description", description)] d hex
  simp [hput, hput2, hidem]

/-- Witness for C8 at a concrete item and body. -/
theorem put_twice_idempotent_witness :
    (putItemRoute (some "sk") (some "sk")
      [("aaaaaaaaaaaaaaaaaaaaaaaa", [("name", Val.str "old"), ("stock", Val.num 5)])]
      "aaaaaaaaaaaaaaaaaaaaaaaa"
      [("name", Val.str "a"), ("description", Val.str "b")]).1.status = 200 ∧
    (putItemRoute (some "sk") (some "sk")
      (putItemRoute (some "sk") (some "sk")
        [("aaaaaaaaaaaaaaaaaaaaaaaa", [("name", Val.str "old"), ("stock", Val.num 5)])]
        "aaaaaaaaaaaaaaaaaaaaaaaa"
        [("name", Val.str "a"), ("description", Val.str "b")]).2.1
      "aaaaaaaaaaaaaaaaaaaaaaaa"
      [("name", Val.str "a"), ("description", Val.str "b")]).2.1
      = (putItemRoute (some "sk") (some "sk")
        [("aaaaaaaaaaaaaaaaaaaaaaaa", [("name", Val.str "old"), ("stock", Val.num 5)])]
        "aaaaaaaaaaaaaaaaaaaaaaaa"
        [("name", Val.str "a"), ("description", Val.str "b")]).2.1 := by
  have h := put_twice_idempotent "sk" (by decide)
    [("aaaaaaaaaaaaaaaaaaaaaaaa", [("name", Val.str "old"), ("stock", Val.num 5)])]
    "aaaaaaaaaaaaaaaaaaaaaaaa" (by decide)
    [("name", Val.str "a"), ("description", Val.str "b")]
    (Val.str "a") (Val.str "b") rfl rfl rfl rfl
    [("name", Val.str "old"), ("stock", Val.num 5)] rfl
  exact ⟨h.1, h.2.2⟩
